import Mathlib

/-!
Verification of the cache / offline-reconciliation core of the vapi-call-viewer
repository (files `cache.py`, `calls.py`, `models.py`), as a shallow embedding.

Modelling conventions:
* Timestamps are `Nat` (the code stores ISO-8601 strings whose lexicographic
  order agrees with chronological order; SQLite orders them as text).
* The SQLite file is `Option Store`: `none` means the database file does not
  exist, `some rows` is the `calls` table content.  `INSERT OR REPLACE` on the
  `id TEXT PRIMARY KEY` column deletes the conflicting row and appends the new
  one.
* Remote HTTP interactions (`httpx.get` against the call API) are inputs of
  type `Except Unit (List Call)`: `.error ()` is a raised transport or decode
  exception (timeout, DNS failure, non-2xx via `raise_for_status`, malformed
  JSON, `parse_call` failure), `.ok calls` is a successfully decoded response.
* Effects are made explicit: `api` counts HTTP requests issued against the
  call API (`https://api.vapi.ai/call`; the connectivity probe `httpx.head`
  to `1.1.1.1` is a separate collaborator and is not a data request), and
  `writes` counts invocations of `cache_calls`.
-/

namespace VapiViewer

/-- Embeds `models.Call` (models.py lines 5-17): one call record.  Field names
follow the pydantic model; `Start`/`End` are chronological instants modelled
as `Nat`, `Cost` is modelled as `Int` (no claim does float arithmetic on it),
`CostBreakdown` is kept as its serialized text form (`json.dumps`/`json.loads`
round-trips it through the store). -/
structure Call where
  id : String
  Caller : String
  Transcript : String
  Summary : String
  Start : Nat
  End : Nat
  Cost : Int
  CostBreakdown : String
  EndedReason : String
deriving DecidableEq

/-- A row of the `calls` table (cache.py lines 20-30): the call columns plus
the store-assigned `cached_at` write timestamp. -/
structure Row where
  call : Call
  cached_at : Nat
deriving DecidableEq

/-- Content of the `calls` table. -/
abbrev Store := List Row

/-- The ids column of a store. -/
def storeIds (s : Store) : List String :=
  s.map fun r => r.call.id

/-- Descending order on `cached_at`, the sort key of
`SELECT * FROM calls ORDER BY datetime(cached_at) DESC` (cache.py lines
136-141; the registered `DATETIME` function is the identity, so rows are
ordered by the raw `cached_at` value). -/
def cachedAtDesc : Row → Row → Prop := fun a b => b.cached_at ≤ a.cached_at

instance : DecidableRel cachedAtDesc := fun a b => Nat.decLe b.cached_at a.cached_at

instance : IsTotal Row cachedAtDesc :=
  ⟨fun a b => (Nat.le_total a.cached_at b.cached_at).symm⟩

instance : IsTrans Row cachedAtDesc :=
  ⟨fun _ _ _ hab hbc => Nat.le_trans hbc hab⟩

/-- Descending order on the `start` column, the sort key of
`SELECT * FROM calls ORDER BY start DESC LIMIT 1` (cache.py line 51). -/
def startDesc : Row → Row → Prop := fun a b => b.call.Start ≤ a.call.Start

instance : DecidableRel startDesc := fun a b => Nat.decLe b.call.Start a.call.Start

/-- The row order produced by `ORDER BY datetime(cached_at) DESC`. -/
def sortRows (rows : Store) : Store :=
  List.insertionSort cachedAtDesc rows

/-- Embeds `cache.init_db` (cache.py lines 14-39): idempotently creates the
database file and the `calls` table, preserving existing data (`CREATE TABLE
IF NOT EXISTS`).  The sqlite-error branch (which returns `False` and writes
nothing) is not modelled; no claim concerns write-side I/O failures. -/
def init_db (db : Option Store) : Option Store :=
  some (db.getD [])

/-- One `INSERT OR REPLACE INTO calls` statement (cache.py lines 95-109):
SQLite deletes any row whose primary key `id` conflicts and inserts the new
row with a fresh rowid (i.e. at the end). -/
def upsert_one (s : Store) (r : Row) : Store :=
  (s.filter fun x => x.call.id ≠ r.call.id) ++ [r]

/-- Embeds `cache.cache_calls` (cache.py lines 75-118): ensures the database
exists via `init_db`, then executes one `INSERT OR REPLACE` per call, every
row of the batch receiving the same `cache_time` timestamp. -/
def cache_calls (calls : List Call) (cache_time : Nat) (db : Option Store) : Option Store :=
  some (calls.foldl (fun s c => upsert_one s ⟨c, cache_time⟩) (db.getD []))

/-- Embeds `cache.get_cached_calls` (cache.py lines 121-166): `None` when the
database file does not exist; otherwise all rows ordered by `cached_at`
descending, reconstructed as `Call` values — except that a store with zero
rows also yields `None` (`if not rows: return None`, lines 146-148). -/
def get_cached_calls (db : Option Store) : Option (List Call) :=
  match db with
  | none => none
  | some rows =>
    if rows.isEmpty then none
    else some ((sortRows rows).map fun r => r.call)

/-- Embeds `cache.get_latest_cached_call` (cache.py lines 42-72): `None` when
the database file does not exist or holds no rows; otherwise the row with the
maximum `start` value (`ORDER BY start DESC LIMIT 1`). -/
def get_latest_cached_call (db : Option Store) : Option Call :=
  match db with
  | none => none
  | some rows =>
    match List.insertionSort startDesc rows with
    | [] => none
    | r :: _ => some r.call

/-- The first row whose `id` column equals `id` — a
`SELECT * FROM calls WHERE id = ?` probe used to state the upsert claims. -/
def find_row (s : Store) (id : String) : Option Row :=
  s.find? fun r => r.call.id == id

/-- Outcome of the `httpx.head("https://1.1.1.1", ...)` probe in
`is_network_available` (calls.py lines 116-127): either a completed HTTP
response carrying some status code, or a raised exception (network error,
timeout, or anything else). -/
inductive HeadOutcome where
  | response (status : Nat)
  | exn
deriving DecidableEq

/-- Embeds `calls.is_network_available` (calls.py lines 116-127): returns
`true` as soon as `httpx.head` returns a response — the status code is never
inspected — and `false` exactly when the request raised (`httpx.NetworkError`,
`httpx.TimeoutException`, or any other exception). -/
def is_network_available (outcome : HeadOutcome) : Bool :=
  match outcome with
  | .response _ => true
  | .exn => false

/-- Effects and final state of one `CacheUpdateManager._check_and_update_cache`
cycle: resulting database, number of call-API requests issued, number of
`cache_calls` store writes, and whether a `CacheUpdated` notification was
posted. -/
structure UpdateResult where
  db : Option Store
  api : Nat
  writes : Nat
  notified : Bool
deriving DecidableEq

/-- Embeds `CacheUpdateManager._check_and_update_cache` (calls.py lines
162-245) together with its callees `_check_for_new_calls` (lines 247-265) and
`_fetch_all_calls` (lines 267-281).  Inputs: the manager's user-offline flag,
the connectivity-probe result, the database, the decoded outcome of the
short-lookback limit-1 check request and of the full-fetch request, and the
write timestamp `now` used by `cache_calls`.  Exceptions from the check or the
fetch are caught by the handlers at lines 228-232 and 234-238 and end the
cycle without a write; an empty fetch result skips the write (`if new_calls:`,
lines 191 and 216). -/
def check_and_update_cache (mgrOffline networkUp : Bool) (db : Option Store)
    (check fetch : Except Unit (List Call)) (now : Nat) : UpdateResult :=
  if mgrOffline then ⟨db, 0, 0, false⟩
  else if !networkUp then ⟨db, 0, 0, false⟩
  else
    match get_cached_calls db with
    | none =>
      match fetch with
      | .error _ => ⟨db, 1, 0, false⟩
      | .ok newCalls =>
        if newCalls.isEmpty then ⟨db, 1, 0, false⟩
        else ⟨cache_calls newCalls now db, 1, 1, true⟩
    | some _ =>
      match check with
      | .error _ => ⟨db, 1, 0, false⟩
      | .ok [] => ⟨db, 1, 0, false⟩
      | .ok (c :: _) =>
        let newAvailable : Bool :=
          match get_latest_cached_call db with
          | some latest => decide (c.id ≠ latest.id)
          | none => true
        if newAvailable then
          match fetch with
          | .error _ => ⟨db, 2, 0, false⟩
          | .ok newCalls =>
            if newCalls.isEmpty then ⟨db, 2, 0, false⟩
            else ⟨cache_calls newCalls now db, 2, 1, true⟩
        else ⟨db, 1, 0, false⟩

/-- The mutable state of a `CacheUpdateManager` relevant to its guards
(calls.py lines 133-139): the `updating` flag and the user-set `offline`
flag. -/
structure Manager where
  updating : Bool
  offline : Bool
deriving DecidableEq

/-- Result of `CacheUpdateManager.start_background_update`: the boolean the
method returns, the manager state once the started cycle (if any) has run to
completion, and the cycle's effects. -/
structure StartResult where
  started : Bool
  mgr : Manager
  upd : UpdateResult
deriving DecidableEq

/-- Embeds `CacheUpdateManager.start_background_update` (calls.py lines
141-160): refuses with `False` when `self.updating or self.offline`, touching
nothing; otherwise runs `_check_and_update_cache` (in a daemon thread, or
synchronously when `foreground_updates` is set — both execute the same cycle,
modelled here as run to completion) and returns `True`.  The cycle's
`finally` block (line 239-241) resets `updating` to `False`. -/
def start_background_update (m : Manager) (networkUp : Bool) (db : Option Store)
    (check fetch : Except Unit (List Call)) (now : Nat) : StartResult :=
  if m.updating || m.offline then ⟨false, m, ⟨db, 0, 0, false⟩⟩
  else
    let u := check_and_update_cache m.offline networkUp db check fetch now
    ⟨true, { m with updating := false }, u⟩

/-- The environment of one `vapi_calls` invocation (calls.py lines 293-400):
its two user arguments, the connectivity-probe result, the database, the
decoded outcomes of the short-lookback check request and of the full-fetch
request, the `updating` flag of the module-level `_cache_manager`, and the
write timestamp used by `cache_calls`.  `skipApiCheck` folds the
`skip_api_check` argument with the `SKIP_API_CHECK` environment variable
(line 339); `foreground_updates` only selects which manager instance logs and
is not modelled. -/
structure VapiEnv where
  offline : Bool
  skipApiCheck : Bool
  networkUp : Bool
  db : Option Store
  check : Except Unit (List Call)
  fetch : Except Unit (List Call)
  mgrUpdating : Bool
  now : Nat

/-- Result of `vapi_calls`: the returned list, the resulting database, the
number of call-API requests issued, and the number of `cache_calls` store
writes (counting, in the `skip_api_check` branch, the effects of the
background update it spawns, run to completion). -/
structure VapiResult where
  calls : List Call
  db : Option Store
  api : Nat
  writes : Nat
deriving DecidableEq

/-- Embeds `calls.vapi_calls` (calls.py lines 293-400).  Control flow:
`effective_offline = offline or not network_up` (line 299);
`cached_calls = get_cached_calls()` (line 316); offline/network-down serves
the cache or `[]` with no API request (lines 318-329); online with a cache
either spawns the background manager when `skip_api_check` is set (lines
339-346, guarded by `_cache_manager.updating`; the global manager's own
offline flag is `False` on this path since the user flag is unset), or issues
the limit-1 check (lines 349-369) whose exception handler returns the cache
(lines 370-372); an up-to-date or empty check result returns the cache; a
differing id or a missing cache triggers the full fetch plus `cache_calls`
(lines 375-390); the outer handler (lines 392-400) returns the cache if any,
else `[]`. -/
def vapi_calls (env : VapiEnv) : VapiResult :=
  let cached := get_cached_calls env.db
  if env.offline || !env.networkUp then
    match cached with
    | some cs => ⟨cs, env.db, 0, 0⟩
    | none => ⟨[], env.db, 0, 0⟩
  else
    match cached with
    | some cs =>
      if env.skipApiCheck then
        if env.mgrUpdating then ⟨cs, env.db, 0, 0⟩
        else
          let u := check_and_update_cache false env.networkUp env.db env.check env.fetch env.now
          ⟨cs, u.db, u.api, u.writes⟩
      else
        match env.check with
        | .error _ => ⟨cs, env.db, 1, 0⟩
        | .ok [] => ⟨cs, env.db, 1, 0⟩
        | .ok (c :: _) =>
          let upToDate : Bool :=
            match get_latest_cached_call env.db with
            | some latest => decide (c.id = latest.id)
            | none => false
          if upToDate then ⟨cs, env.db, 1, 0⟩
          else
            match env.fetch with
            | .error _ => ⟨cs, env.db, 2, 0⟩
            | .ok newCalls => ⟨newCalls, cache_calls newCalls env.now env.db, 2, 1⟩
    | none =>
      match env.fetch with
      | .error _ => ⟨[], env.db, 1, 0⟩
      | .ok newCalls => ⟨newCalls, cache_calls newCalls env.now env.db, 1, 1⟩

/-- State of the database file as seen by the sqlite layer during a read:
absent, present but unreadable as a `calls` table (corrupt file, not a
database, permission error on open — `sqlite3.connect`/`execute` raise), or
readable with the given rows. -/
inductive DBFile where
  | missing
  | corrupt
  | ok (rows : Store)
deriving DecidableEq

/-- `cache.get_cached_calls` with the sqlite layer's fallibility made
explicit: the function body (cache.py lines 121-166) contains no
`try`/`except`, so the only state it maps to "no data" is a missing file
(line 124-126); an exception raised by `sqlite3.connect`/`execute` on an
existing but unreadable file propagates to the caller. -/
def get_cached_calls_from_file (f : DBFile) : Except String (Option (List Call)) :=
  match f with
  | .missing => .ok none
  | .corrupt => .error "sqlite3.DatabaseError"
  | .ok rows => .ok (get_cached_calls (some rows))

/-- `cache.get_latest_cached_call` with the sqlite layer's fallibility made
explicit (cache.py lines 42-72): same shape — no `try`/`except`, a missing
file yields `None`, a read error on an existing file propagates. -/
def get_latest_cached_call_from_file (f : DBFile) : Except String (Option Call) :=
  match f with
  | .missing => .ok none
  | .corrupt => .error "sqlite3.DatabaseError"
  | .ok rows => .ok (get_latest_cached_call (some rows))

/-- Whether an `Except` value is a success (the read returned instead of
raising). -/
def readSucceeded {ε α : Type} (e : Except ε α) : Bool :=
  match e with
  | .ok _ => true
  | .error _ => false

/-- Sample record used to instantiate witnesses. -/
def sampleA : Call := ⟨"id-a", "+1234567890", "hello", "sum a", 10, 20, 1, "\x7b\x7d", "Customer Ended"⟩

/-- Sample record with an id distinct from `sampleA`. -/
def sampleB : Call := ⟨"id-b", "+0987654321", "world", "sum b", 30, 40, 2, "\x7b\x7d", ""⟩

/-- Re-observation of `sampleA`'s id with every other field changed. -/
def sampleA2 : Call := ⟨"id-a", "+111", "hello again", "sum a2", 11, 21, 3, "\x7b\x7d", "Error"⟩

/-- Witness environment for C1: user offline flag set, cache populated. -/
def envC1 : VapiEnv := ⟨true, false, true, some [⟨sampleA, 1⟩], .error (), .error (), false, 5⟩

/-- Witness environment for C2: online, cache populated, the limit-1 check
returns a record whose id equals the cached latest-by-start id. -/
def envC2 : VapiEnv := ⟨false, false, true, some [⟨sampleA, 1⟩], .ok [sampleA2], .error (), false, 5⟩

/-- Witness environment for C3: online, cache populated, the limit-1 check
succeeds with a record carrying a new id, and the full fetch it triggers
raises. -/
def envC3 : VapiEnv := ⟨false, false, true, some [⟨sampleA, 1⟩], .ok [sampleB], .error (), false, 5⟩

/-- Witness environment for C3, no-cache side: online, store file missing,
the full fetch raises. -/
def envC3nc : VapiEnv := ⟨false, false, true, none, .error (), .error (), false, 5⟩

/-- Witness environment for C4: online, cache populated, the limit-1 check
returns zero records. -/
def envC4 : VapiEnv := ⟨false, false, true, some [⟨sampleA, 1⟩], .ok [], .error (), false, 5⟩

/-- The store content after upserting batch `A` at time `tA` and then batch
`B` at time `tB`. -/
def two_batch_store (db : Option Store) (A B : List Call) (tA tB : Nat) : Store :=
  (cache_calls B tB (cache_calls A tA db)).getD []

/-! ### Helper lemmas about the store operations -/

theorem mem_upsert_one_self (s : Store) (r : Row) : r ∈ upsert_one s r := by
  simp [upsert_one]

theorem mem_upsert_one_of_ne {s : Store} {x : Row} (hx : x ∈ s) (r : Row)
    (h : x.call.id ≠ r.call.id) : x ∈ upsert_one s r := by
  simp [upsert_one, List.mem_filter, hx, h]

theorem storeIds_append (s₁ s₂ : Store) :
    storeIds (s₁ ++ s₂) = storeIds s₁ ++ storeIds s₂ := by
  simp [storeIds]

theorem storeIds_nodup_upsert_one {s : Store} (h : (storeIds s).Nodup) (r : Row) :
    (storeIds (upsert_one s r)).Nodup := by
  have hsub : (storeIds (s.filter fun x => x.call.id ≠ r.call.id)).Sublist (storeIds s) :=
    (List.filter_sublist s).map _
  have h1 : (storeIds (s.filter fun x => x.call.id ≠ r.call.id)).Nodup := h.sublist hsub
  have h2 : r.call.id ∉ storeIds (s.filter fun x => x.call.id ≠ r.call.id) := by
    simp only [storeIds, List.mem_map, List.mem_filter]
    rintro ⟨x, ⟨-, hne⟩, heq⟩
    simp only [decide_eq_true_eq] at hne
    exact hne heq
  have hperm : (storeIds (s.filter fun x => x.call.id ≠ r.call.id) ++ [r.call.id]).Perm
      (r.call.id :: storeIds (s.filter fun x => x.call.id ≠ r.call.id)) :=
    List.perm_append_singleton _ _
  rw [upsert_one, storeIds_append]
  exact hperm.nodup_iff.mpr (List.nodup_cons.mpr ⟨h2, h1⟩)

theorem mem_storeIds_upsert_one {s : Store} {i : String} (h : i ∈ storeIds s) (r : Row) :
    i ∈ storeIds (upsert_one s r) := by
  by_cases hid : i = r.call.id
  · simp [upsert_one, storeIds, hid]
  · obtain ⟨x, hx, hxe⟩ := List.mem_map.mp h
    exact List.mem_map.mpr ⟨x, mem_upsert_one_of_ne hx r (by rw [hxe]; exact hid), hxe⟩

theorem nodup_ids_unique {s : Store} (h : (storeIds s).Nodup) {x y : Row}
    (hx : x ∈ s) (hy : y ∈ s) (hid : x.call.id = y.call.id) : x = y :=
  List.inj_on_of_nodup_map (by simpa [storeIds] using h) hx hy hid

theorem upsert_one_ne_nil (s : Store) (r : Row) : upsert_one s r ≠ [] := by
  simp [upsert_one]

theorem foldl_upsert_nodup (t : Nat) :
    ∀ (calls : List Call) (s : Store), (storeIds s).Nodup →
      (storeIds (calls.foldl (fun s c => upsert_one s ⟨c, t⟩) s)).Nodup := by
  intro calls
  induction calls with
  | nil => intro s hs; exact hs
  | cons c rest ih =>
    intro s hs
    exact ih (upsert_one s ⟨c, t⟩) (storeIds_nodup_upsert_one hs ⟨c, t⟩)

theorem foldl_upsert_mem_ids (t : Nat) :
    ∀ (calls : List Call) (s : Store) (i : String), i ∈ storeIds s →
      i ∈ storeIds (calls.foldl (fun s c => upsert_one s ⟨c, t⟩) s) := by
  intro calls
  induction calls with
  | nil => intro s i hi; exact hi
  | cons c rest ih =>
    intro s i hi
    exact ih (upsert_one s ⟨c, t⟩) i (mem_storeIds_upsert_one hi ⟨c, t⟩)

theorem foldl_upsert_preserves_row (t : Nat) :
    ∀ (calls : List Call) (s : Store) (x : Row), x ∈ s →
      x.call.id ∉ calls.map Call.id →
      x ∈ calls.foldl (fun s c => upsert_one s ⟨c, t⟩) s := by
  intro calls
  induction calls with
  | nil => intro s x hx _; exact hx
  | cons c rest ih =>
    intro s x hx hni
    simp only [List.map_cons, List.mem_cons, not_or] at hni
    exact ih (upsert_one s ⟨c, t⟩) x (mem_upsert_one_of_ne hx ⟨c, t⟩ hni.1) hni.2

theorem foldl_upsert_mem_batch (t : Nat) :
    ∀ (calls : List Call) (s : Store), (calls.map Call.id).Nodup →
      ∀ c ∈ calls, (⟨c, t⟩ : Row) ∈ calls.foldl (fun s c => upsert_one s ⟨c, t⟩) s := by
  intro calls
  induction calls with
  | nil => intro s _ c hc; exact absurd hc (List.not_mem_nil c)
  | cons c₀ rest ih =>
    intro s hnd c hc
    simp only [List.map_cons, List.nodup_cons] at hnd
    rcases List.mem_cons.mp hc with hc | hc
    · subst hc
      exact foldl_upsert_preserves_row t rest (upsert_one s ⟨c, t⟩) ⟨c, t⟩
        (mem_upsert_one_self s ⟨c, t⟩) hnd.1
    · exact ih (upsert_one s ⟨c₀, t⟩) hnd.2 c hc

theorem foldl_upsert_ne_nil (t : Nat) :
    ∀ (calls : List Call) (s : Store), calls ≠ [] →
      calls.foldl (fun s c => upsert_one s ⟨c, t⟩) s ≠ [] := by
  intro calls
  induction calls with
  | nil => intro s h; exact absurd rfl h
  | cons c rest ih =>
    intro s _
    cases rest with
    | nil => simpa using upsert_one_ne_nil s ⟨c, t⟩
    | cons c' rest' => exact ih (upsert_one s ⟨c, t⟩) (by simp)

/-! ### Claim theorems -/

/-- C5: upserting (`cache_calls`) a record whose id already exists replaces
all fields of that row (the stored row with that id is exactly the upserted
record with the batch timestamp); id uniqueness is preserved by every batch,
so after any sequence of upserts the store never holds two rows with the same
id; and every id present before an upsert is still present after it. -/
theorem cache_calls_upsert_invariants (db : Option Store) (calls : List Call) (t : Nat)
    (h0 : (storeIds (db.getD [])).Nodup) :
    (storeIds ((cache_calls calls t db).getD [])).Nodup ∧
    (∀ i ∈ storeIds (db.getD []), i ∈ storeIds ((cache_calls calls t db).getD [])) ∧
    ((calls.map Call.id).Nodup → ∀ c ∈ calls,
      (⟨c, t⟩ : Row) ∈ (cache_calls calls t db).getD [] ∧
      ∀ r ∈ (cache_calls calls t db).getD [], r.call.id = c.id → r = ⟨c, t⟩) := by
  have hnd : (storeIds ((cache_calls calls t db).getD [])).Nodup :=
    foldl_upsert_nodup t calls (db.getD []) h0
  refine ⟨hnd, ?_, ?_⟩
  · intro i hi
    exact foldl_upsert_mem_ids t calls (db.getD []) i hi
  · intro hbatch c hc
    have hmem : (⟨c, t⟩ : Row) ∈ (cache_calls calls t db).getD [] :=
      foldl_upsert_mem_batch t calls (db.getD []) hbatch c hc
    refine ⟨hmem, ?_⟩
    intro r hr hid
    exact nodup_ids_unique hnd hr hmem hid

/-- C5 witness: a store holding `sampleA` and `sampleB`, re-upserting
`sampleA`'s id with new fields alongside `sampleB`. -/
theorem cache_calls_upsert_invariants_witness :
    (storeIds ((some [⟨sampleA, 1⟩, ⟨sampleB, 1⟩] : Option Store).getD [])).Nodup ∧
    ((storeIds ((cache_calls [sampleA2, sampleB] 2 (some [⟨sampleA, 1⟩, ⟨sampleB, 1⟩])).getD [])).Nodup ∧
    (∀ i ∈ storeIds ((some [⟨sampleA, 1⟩, ⟨sampleB, 1⟩] : Option Store).getD []),
      i ∈ storeIds ((cache_calls [sampleA2, sampleB] 2 (some [⟨sampleA, 1⟩, ⟨sampleB, 1⟩])).getD [])) ∧
    (([sampleA2, sampleB].map Call.id).Nodup → ∀ c ∈ [sampleA2, sampleB],
      (⟨c, 2⟩ : Row) ∈ (cache_calls [sampleA2, sampleB] 2 (some [⟨sampleA, 1⟩, ⟨sampleB, 1⟩])).getD [] ∧
      ∀ r ∈ (cache_calls [sampleA2, sampleB] 2 (some [⟨sampleA, 1⟩, ⟨sampleB, 1⟩])).getD [],
        r.call.id = c.id → r = ⟨c, 2⟩)) :=
  ⟨by decide, cache_calls_upsert_invariants (some [⟨sampleA, 1⟩, ⟨sampleB, 1⟩])
    [sampleA2, sampleB] 2 (by decide)⟩

/-- C7 counterexample: a read of an existing but unreadable store file does
not return the no-data value — the sqlite exception propagates out of
`get_cached_calls` / `get_latest_cached_call`, whose bodies contain no
`try`/`except`. -/
theorem store_read_error_raises :
    get_cached_calls_from_file DBFile.corrupt = Except.error "sqlite3.DatabaseError" ∧
    get_latest_cached_call_from_file DBFile.corrupt = Except.error "sqlite3.DatabaseError" ∧
    get_cached_calls_from_file DBFile.corrupt ≠ Except.ok none := by
  refine ⟨rfl, rfl, ?_⟩
  intro h
  exact Except.noConfusion h

/-- C7 amended: reads return the no-data value when the store file does not
exist, and return normally on a readable store, but an I/O error while
reading an existing store file propagates to the caller instead of being
converted to no-data. -/
theorem store_read_error_behavior :
    get_cached_calls_from_file DBFile.missing = Except.ok none ∧
    get_latest_cached_call_from_file DBFile.missing = Except.ok none ∧
    (∀ rows : Store, readSucceeded (get_cached_calls_from_file (DBFile.ok rows)) = true) ∧
    (∀ rows : Store, readSucceeded (get_latest_cached_call_from_file (DBFile.ok rows)) = true) ∧
    readSucceeded (get_cached_calls_from_file DBFile.corrupt) = false ∧
    readSucceeded (get_latest_cached_call_from_file DBFile.corrupt) = false :=
  ⟨rfl, rfl, fun _ => rfl, fun _ => rfl, rfl, rfl⟩

/-- C7 witness: the amended behavior evaluated on a one-row readable store. -/
theorem store_read_error_behavior_witness :
    readSucceeded (get_cached_calls_from_file (DBFile.ok [⟨sampleA, 1⟩])) = true ∧
    readSucceeded (get_latest_cached_call_from_file (DBFile.ok [⟨sampleA, 1⟩])) = true :=
  ⟨store_read_error_behavior.2.2.1 [⟨sampleA, 1⟩], store_read_error_behavior.2.2.2.1 [⟨sampleA, 1⟩]⟩

/-- C8 counterexample: the result for a missing store file and the result for
an existing store with zero rows are the same value (`None`), hence not
distinguishable. -/
theorem missing_file_indistinguishable_from_empty_store :
    get_cached_calls none = none ∧ get_cached_calls (some []) = none ∧
    get_cached_calls none = get_cached_calls (some []) :=
  ⟨rfl, rfl, rfl⟩

/-- C8 amended: `get_cached_calls` returns the no-data value exactly when the
store file does not exist or the store holds zero rows — the missing-file
case does yield the explicit no-data result, but it coincides with the
zero-rows result. -/
theorem get_cached_calls_none_iff (db : Option Store) :
    get_cached_calls db = none ↔ db = none ∨ db = some [] := by
  cases db with
  | none => simp [get_cached_calls]
  | some rows => cases rows <;> simp [get_cached_calls]

/-- C8 witness: the amended characterization evaluated at a populated store. -/
theorem get_cached_calls_none_iff_witness :
    get_cached_calls (some [⟨sampleA, 1⟩]) = none ↔
      (some [⟨sampleA, 1⟩] : Option Store) = none ∨
      (some [⟨sampleA, 1⟩] : Option Store) = some [] :=
  get_cached_calls_none_iff (some [⟨sampleA, 1⟩])

/-- C9: when a manager's `updating` flag is set, `start_background_update`
returns `False`, changes no manager state, issues no API request, performs no
store write and posts no notification. -/
theorem start_background_update_skips_when_updating (m : Manager) (networkUp : Bool)
    (db : Option Store) (check fetch : Except Unit (List Call)) (now : Nat)
    (h : m.updating = true) :
    (start_background_update m networkUp db check fetch now).started = false ∧
    (start_background_update m networkUp db check fetch now).mgr = m ∧
    (start_background_update m networkUp db check fetch now).upd.db = db ∧
    (start_background_update m networkUp db check fetch now).upd.api = 0 ∧
    (start_background_update m networkUp db check fetch now).upd.writes = 0 ∧
    (start_background_update m networkUp db check fetch now).upd.notified = false := by
  simp [start_background_update, h]

/-- C9 witness: a busy manager, network up, a populated store and remote data
available — the second start is still refused and touches nothing. -/
theorem start_background_update_skips_when_updating_witness :
    (Manager.updating ⟨true, false⟩ = true) ∧
    ((start_background_update ⟨true, false⟩ true (some [⟨sampleA, 1⟩]) (Except.ok [sampleB]) (Except.ok [sampleB]) 3).started = false ∧
     (start_background_update ⟨true, false⟩ true (some [⟨sampleA, 1⟩]) (Except.ok [sampleB]) (Except.ok [sampleB]) 3).mgr = ⟨true, false⟩ ∧
     (start_background_update ⟨true, false⟩ true (some [⟨sampleA, 1⟩]) (Except.ok [sampleB]) (Except.ok [sampleB]) 3).upd.db = some [⟨sampleA, 1⟩] ∧
     (start_background_update ⟨true, false⟩ true (some [⟨sampleA, 1⟩]) (Except.ok [sampleB]) (Except.ok [sampleB]) 3).upd.api = 0 ∧
     (start_background_update ⟨true, false⟩ true (some [⟨sampleA, 1⟩]) (Except.ok [sampleB]) (Except.ok [sampleB]) 3).upd.writes = 0 ∧
     (start_background_update ⟨true, false⟩ true (some [⟨sampleA, 1⟩]) (Except.ok [sampleB]) (Except.ok [sampleB]) 3).upd.notified = false) :=
  ⟨rfl, start_background_update_skips_when_updating ⟨true, false⟩ true (some [⟨sampleA, 1⟩])
    (Except.ok [sampleB]) (Except.ok [sampleB]) 3 rfl⟩

/-- C10: the connectivity probe reports reachable for any completed HTTP
response, whatever its status code, and unreachable exactly when the request
raised. -/
theorem is_network_available_any_response (status : Nat) :
    is_network_available (HeadOutcome.response status) = true ∧
    is_network_available HeadOutcome.exn = false :=
  ⟨rfl, rfl⟩

/-- C10 witness: a 500 server-error response still counts as reachable. -/
theorem is_network_available_any_response_witness :
    is_network_available (HeadOutcome.response 500) = true ∧
    is_network_available HeadOutcome.exn = false :=
  is_network_available_any_response 500

/-- C1: with the user offline flag set or the network unreachable,
`vapi_calls` issues zero call-API requests, performs no store write, leaves
the store untouched, and returns exactly the cached rows when the cache has
data — the empty list otherwise. -/
theorem vapi_calls_offline_uses_cache_only (env : VapiEnv)
    (h : env.offline = true ∨ env.networkUp = false) :
    (vapi_calls env).api = 0 ∧ (vapi_calls env).writes = 0 ∧
    (vapi_calls env).db = env.db ∧
    (vapi_calls env).calls = (get_cached_calls env.db).getD [] := by
  have heff : (env.offline || !env.networkUp) = true := by
    rcases h with h | h <;> simp [h]
  cases hc : get_cached_calls env.db <;> simp [vapi_calls, heff, hc]

/-- C1 witness: offline flag set over a populated cache. -/
theorem vapi_calls_offline_uses_cache_only_witness :
    (envC1.offline = true ∨ envC1.networkUp = false) ∧
    ((vapi_calls envC1).api = 0 ∧ (vapi_calls envC1).writes = 0 ∧
     (vapi_calls envC1).db = envC1.db ∧
     (vapi_calls envC1).calls = (get_cached_calls envC1.db).getD []) :=
  ⟨Or.inl rfl, vapi_calls_offline_uses_cache_only envC1 (Or.inl rfl)⟩

/-- C2: online with a populated cache, when the remote's single most-recent
record id equals the cache's latest-by-start-time id, `vapi_calls` returns
the cached list unchanged, performs no store write, leaves the store
untouched, and issues at most the one limit-1 check request — no full
fetch. -/
theorem vapi_calls_up_to_date_serves_cache (env : VapiEnv) (cs : List Call)
    (c : Call) (rest : List Call) (latest : Call)
    (hoff : env.offline = false) (hnet : env.networkUp = true)
    (hcache : get_cached_calls env.db = some cs)
    (hcheck : env.check = Except.ok (c :: rest))
    (hlatest : get_latest_cached_call env.db = some latest)
    (hid : c.id = latest.id) :
    (vapi_calls env).calls = cs ∧ (vapi_calls env).db = env.db ∧
    (vapi_calls env).writes = 0 ∧ (vapi_calls env).api ≤ 1 := by
  cases hskip : env.skipApiCheck <;> cases hm : env.mgrUpdating <;>
    simp [vapi_calls, check_and_update_cache, hoff, hnet, hcache, hcheck,
      hlatest, hid, hskip, hm]

/-- C2 witness: the remote check returns a record with the cached latest id. -/
theorem vapi_calls_up_to_date_serves_cache_witness :
    (envC2.offline = false ∧ envC2.networkUp = true ∧
     get_cached_calls envC2.db = some [sampleA] ∧
     envC2.check = Except.ok (sampleA2 :: []) ∧
     get_latest_cached_call envC2.db = some sampleA ∧
     sampleA2.id = sampleA.id) ∧
    ((vapi_calls envC2).calls = [sampleA] ∧ (vapi_calls envC2).db = envC2.db ∧
     (vapi_calls envC2).writes = 0 ∧ (vapi_calls envC2).api ≤ 1) :=
  ⟨⟨rfl, rfl, by decide, rfl, by decide, by decide⟩,
    vapi_calls_up_to_date_serves_cache envC2 [sampleA] sampleA2 [] sampleA
      rfl rfl (by decide) rfl (by decide) (by decide)⟩

/-- C3: an execution of `vapi_calls` in which an issued remote request raises
a transport or decode error never propagates the exception and performs no
store write.  With a populated cache this covers both raising requests: the
limit-1 check raising (inner handler, calls.py lines 370-372) and the check
succeeding with some record followed by the full fetch raising (outer
handler, lines 392-396) — each returns the cached list with the store
untouched; with no cache, a raising full fetch returns the empty list (lines
397-400). -/
theorem vapi_calls_remote_error_fallback (env : VapiEnv) :
    (∀ cs : List Call, get_cached_calls env.db = some cs →
      env.check = Except.error () →
      (vapi_calls env).calls = cs ∧ (vapi_calls env).db = env.db ∧
      (vapi_calls env).writes = 0) ∧
    (∀ (cs : List Call) (c : Call) (rest : List Call),
      get_cached_calls env.db = some cs →
      env.check = Except.ok (c :: rest) → env.fetch = Except.error () →
      (vapi_calls env).calls = cs ∧ (vapi_calls env).db = env.db ∧
      (vapi_calls env).writes = 0) ∧
    (get_cached_calls env.db = none → env.fetch = Except.error () →
      (vapi_calls env).calls = [] ∧ (vapi_calls env).db = env.db ∧
      (vapi_calls env).writes = 0) := by
  refine ⟨?_, ?_, ?_⟩
  · intro cs hc hcheck
    cases hb : env.offline <;> cases hn : env.networkUp <;>
      cases hskip : env.skipApiCheck <;> cases hm : env.mgrUpdating <;>
        simp [vapi_calls, check_and_update_cache, hb, hn, hc, hskip, hm, hcheck]
  · intro cs c rest hc hcheck hfetch
    cases hb : env.offline <;> cases hn : env.networkUp <;>
      cases hskip : env.skipApiCheck <;> cases hm : env.mgrUpdating <;>
        simp [vapi_calls, check_and_update_cache, hb, hn, hc, hskip, hm, hcheck,
          hfetch, apply_ite]
  · intro hc hfetch
    cases hb : env.offline <;> cases hn : env.networkUp <;>
      cases hskip : env.skipApiCheck <;> cases hm : env.mgrUpdating <;>
        simp [vapi_calls, check_and_update_cache, hb, hn, hc, hskip, hm, hfetch]

/-- C3 witness: the outer-handler fallback — a populated cache, a successful
check that detects a new id, and a raising full fetch — and the no-cache
side with a raising fetch. -/
theorem vapi_calls_remote_error_fallback_witness :
    (get_cached_calls envC3.db = some [sampleA] ∧
     envC3.check = Except.ok (sampleB :: []) ∧ envC3.fetch = Except.error () ∧
     ((vapi_calls envC3).calls = [sampleA] ∧ (vapi_calls envC3).db = envC3.db ∧
      (vapi_calls envC3).writes = 0)) ∧
    (get_cached_calls envC3nc.db = none ∧ envC3nc.fetch = Except.error () ∧
     ((vapi_calls envC3nc).calls = [] ∧ (vapi_calls envC3nc).db = envC3nc.db ∧
      (vapi_calls envC3nc).writes = 0)) := by
  have h2 := (vapi_calls_remote_error_fallback envC3).2.1 [sampleA] sampleB []
    (by decide) rfl rfl
  have h3 := (vapi_calls_remote_error_fallback envC3nc).2.2 rfl rfl
  exact ⟨⟨by decide, rfl, rfl, h2⟩, ⟨rfl, rfl, h3⟩⟩

/-- C4: online with a populated cache, when the short-lookback limit-1 check
returns zero records, `vapi_calls` treats the cache as already up to date:
it returns the cached list, leaves the store untouched, performs no store
write and issues at most the one check request — no full refetch. -/
theorem vapi_calls_empty_check_serves_cache (env : VapiEnv) (cs : List Call)
    (hoff : env.offline = false) (hnet : env.networkUp = true)
    (hcache : get_cached_calls env.db = some cs)
    (hcheck : env.check = Except.ok []) :
    (vapi_calls env).calls = cs ∧ (vapi_calls env).db = env.db ∧
    (vapi_calls env).writes = 0 ∧ (vapi_calls env).api ≤ 1 := by
  cases hskip : env.skipApiCheck <;> cases hm : env.mgrUpdating <;>
    simp [vapi_calls, check_and_update_cache, hoff, hnet, hcache, hcheck, hskip, hm]

/-- C4 witness: the remote check window is empty over a populated cache. -/
theorem vapi_calls_empty_check_serves_cache_witness :
    (envC4.offline = false ∧ envC4.networkUp = true ∧
     get_cached_calls envC4.db = some [sampleA] ∧
     envC4.check = Except.ok []) ∧
    ((vapi_calls envC4).calls = [sampleA] ∧ (vapi_calls envC4).db = envC4.db ∧
     (vapi_calls envC4).writes = 0 ∧ (vapi_calls envC4).api ≤ 1) :=
  ⟨⟨rfl, rfl, by decide, rfl⟩,
    vapi_calls_empty_check_serves_cache envC4 [sampleA] rfl rfl (by decide) rfl⟩

/-- `get_cached_calls` on a nonempty table lists the rows in `cached_at`
descending order. -/
theorem get_cached_calls_of_ne_nil {rows : Store} (h : rows ≠ []) :
    get_cached_calls (some rows) = some ((sortRows rows).map fun r => r.call) := by
  cases rows with
  | nil => exact absurd rfl h
  | cons a l => rfl

/-- C6: after upserting batch `A` and then batch `B`, the write timestamps
being in that order, `get_cached_calls` returns all rows of the store ordered
by `cached_at` descending; in particular every row carrying batch `B`'s write
timestamp is listed before every row carrying batch `A`'s, regardless of the
calls' own start times. -/
theorem get_cached_calls_newest_batch_first (db : Option Store) (A B : List Call)
    (tA tB : Nat) (hAB : tA < tB) (hB : B ≠ []) :
    get_cached_calls (cache_calls B tB (cache_calls A tA db)) =
      some ((sortRows (two_batch_store db A B tA tB)).map fun r => r.call) ∧
    (sortRows (two_batch_store db A B tA tB)).Perm (two_batch_store db A B tA tB) ∧
    List.Sorted cachedAtDesc (sortRows (two_batch_store db A B tA tB)) ∧
    ∀ (i j : Fin (sortRows (two_batch_store db A B tA tB)).length),
      ((sortRows (two_batch_store db A B tA tB)).get i).cached_at = tB →
      ((sortRows (two_batch_store db A B tA tB)).get j).cached_at = tA →
      (i : Nat) < (j : Nat) := by
  have hne : two_batch_store db A B tA tB ≠ [] := by
    have h := foldl_upsert_ne_nil tB B ((cache_calls A tA db).getD []) hB
    simpa [two_batch_store, cache_calls] using h
  have hsorted : List.Sorted cachedAtDesc (sortRows (two_batch_store db A B tA tB)) :=
    List.sorted_insertionSort cachedAtDesc _
  refine ⟨get_cached_calls_of_ne_nil hne, List.perm_insertionSort cachedAtDesc _, hsorted, ?_⟩
  intro i j hti htj
  rcases Nat.lt_trichotomy (i : Nat) (j : Nat) with h | h | h
  · exact h
  · exfalso
    have hij : i = j := Fin.ext h
    subst hij
    rw [hti] at htj
    exact absurd (htj ▸ hAB) (lt_irrefl tA)
  · exfalso
    have hp := List.pairwise_iff_get.mp hsorted j i (Fin.lt_def.mpr h)
    rw [cachedAtDesc] at hp
    rw [hti, htj] at hp
    exact absurd (lt_of_lt_of_le hAB hp) (lt_irrefl tA)

/-- C6 witness: batch `A = [sampleA]` written at time 1, then batch
`B = [sampleB]` written at time 2, into an initially missing store. -/
theorem get_cached_calls_newest_batch_first_witness :
    (1 < 2 ∧ ([sampleB] : List Call) ≠ []) ∧
    (get_cached_calls (cache_calls [sampleB] 2 (cache_calls [sampleA] 1 none)) =
      some ((sortRows (two_batch_store none [sampleA] [sampleB] 1 2)).map fun r => r.call) ∧
    (sortRows (two_batch_store none [sampleA] [sampleB] 1 2)).Perm
      (two_batch_store none [sampleA] [sampleB] 1 2) ∧
    List.Sorted cachedAtDesc (sortRows (two_batch_store none [sampleA] [sampleB] 1 2)) ∧
    ∀ (i j : Fin (sortRows (two_batch_store none [sampleA] [sampleB] 1 2)).length),
      ((sortRows (two_batch_store none [sampleA] [sampleB] 1 2)).get i).cached_at = 2 →
      ((sortRows (two_batch_store none [sampleA] [sampleB] 1 2)).get j).cached_at = 1 →
      (i : Nat) < (j : Nat)) :=
  ⟨⟨by decide, by decide⟩,
    get_cached_calls_newest_batch_first none [sampleA] [sampleB] 1 2 (by decide) (by decide)⟩

end VapiViewer
